import Mathlib

/-!
Verification of the `math3d` package (ProjectMOA/gotrace): a 3D vector
value type `Vector3` over IEEE-754 float64 with arithmetic, dot/cross
products, reflection, distance, approximate comparison, and map
conversion.

Embedding of float64: values are modelled by `F`, a rational number
(exact arithmetic, rounding ignored — none of the properties below is
sensitive to rounding, signed zero or overflow) extended with the IEEE
special values `+Inf`, `-Inf` and `NaN`.  The special-value propagation
rules of the arithmetic and comparison operators follow IEEE-754
(`Inf - Inf = NaN`, `0/0 = NaN`, any comparison with `NaN` is false,
and so on).  `math.Sqrt` is left as an uninterpreted function parameter
`sqrt : F → F`, since the claims about `Abs`/`Normalized`/`Distance`
do not depend on its values beyond what is hypothesised explicitly.
-/

namespace math3d

/-- Model of a Go `float64`: a rational (exact finite value) or one of
the IEEE-754 special values. -/
inductive F where
  | finite : ℚ → F
  | pinf : F
  | ninf : F
  | nan : F
deriving DecidableEq, Repr

namespace F

/-- IEEE negation. -/
def neg : F → F
  | finite q => finite (-q)
  | pinf => ninf
  | ninf => pinf
  | nan => nan

/-- IEEE addition (exact on finite values). -/
def add : F → F → F
  | finite a, finite b => finite (a + b)
  | finite _, pinf => pinf
  | finite _, ninf => ninf
  | pinf, finite _ => pinf
  | ninf, finite _ => ninf
  | pinf, pinf => pinf
  | ninf, ninf => ninf
  | pinf, ninf => nan
  | ninf, pinf => nan
  | _, _ => nan

/-- IEEE subtraction (exact on finite values). -/
def sub : F → F → F
  | finite a, finite b => finite (a - b)
  | finite _, pinf => ninf
  | finite _, ninf => pinf
  | pinf, finite _ => pinf
  | ninf, finite _ => ninf
  | pinf, ninf => pinf
  | ninf, pinf => ninf
  | pinf, pinf => nan
  | ninf, ninf => nan
  | _, _ => nan

/-- IEEE multiplication (exact on finite values); `Inf * 0 = NaN`. -/
def mul : F → F → F
  | finite a, finite b => finite (a * b)
  | finite a, pinf => if 0 < a then pinf else if a < 0 then ninf else nan
  | finite a, ninf => if 0 < a then ninf else if a < 0 then pinf else nan
  | pinf, finite b => if 0 < b then pinf else if b < 0 then ninf else nan
  | ninf, finite b => if 0 < b then ninf else if b < 0 then pinf else nan
  | pinf, pinf => pinf
  | ninf, ninf => pinf
  | pinf, ninf => ninf
  | ninf, pinf => ninf
  | _, _ => nan

/-- IEEE division (exact on finite values); division of a nonzero
finite value by zero yields a signed infinity, `0/0 = NaN`. -/
def div : F → F → F
  | finite a, finite b =>
      if b = 0 then (if 0 < a then pinf else if a < 0 then ninf else nan)
      else finite (a / b)
  | finite _, pinf => finite 0
  | finite _, ninf => finite 0
  | pinf, finite b => if b < 0 then ninf else pinf
  | ninf, finite b => if b < 0 then pinf else ninf
  | pinf, pinf => nan
  | pinf, ninf => nan
  | ninf, pinf => nan
  | ninf, ninf => nan
  | _, _ => nan

/-- Model of Go `math.Abs`. -/
def fabs : F → F
  | finite q => finite |q|
  | pinf => pinf
  | ninf => pinf
  | nan => nan

/-- IEEE `<` comparison as a Go `bool`: any comparison involving `NaN`
is false. -/
def flt : F → F → Bool
  | finite a, finite b => decide (a < b)
  | finite _, pinf => true
  | pinf, finite _ => false
  | ninf, finite _ => true
  | finite _, ninf => false
  | ninf, pinf => true
  | pinf, ninf => false
  | pinf, pinf => false
  | ninf, ninf => false
  | _, _ => false

/-- Whether the value is an ordinary (finite) number: not `NaN` and not
an infinity. -/
def isFinite : F → Bool
  | finite _ => true
  | _ => false

instance : Add F := ⟨F.add⟩
instance : Sub F := ⟨F.sub⟩
instance : Mul F := ⟨F.mul⟩
instance : Div F := ⟨F.div⟩
instance : Neg F := ⟨F.neg⟩

theorem add_def (a b : F) : a + b = F.add a b := rfl

theorem sub_def (a b : F) : a - b = F.sub a b := rfl

theorem mul_def (a b : F) : a * b = F.mul a b := rfl

theorem div_def (a b : F) : a / b = F.div a b := rfl

/-- Multiplication of modelled floats is commutative (as it is in
IEEE-754). -/
theorem mul_comm (a b : F) : a * b = b * a := by
  cases a <;> cases b <;> try rfl
  exact congrArg finite (by ring)

/-- Squaring an IEEE difference is insensitive to the order of the
subtraction: `(a-b)*(a-b) = (b-a)*(b-a)`, special values included. -/
theorem sq_sub_symm (a b : F) : (a - b) * (a - b) = (b - a) * (b - a) := by
  cases a <;> cases b <;> try rfl
  exact congrArg finite (by ring)

/-- A finite float is a `finite` constructor. -/
theorem eq_finite_of_isFinite : ∀ {x : F}, x.isFinite = true → ∃ q, x = F.finite q := by
  intro x h
  cases x with
  | finite q => exact ⟨q, rfl⟩
  | pinf => simp [isFinite] at h
  | ninf => simp [isFinite] at h
  | nan => simp [isFinite] at h

/-- Dividing any IEEE value by (unsigned) zero yields an infinity or a
`NaN`, never a finite value. -/
theorem div_finite_zero (c : F) :
    c / F.finite 0 = F.pinf ∨ c / F.finite 0 = F.ninf ∨ c / F.finite 0 = F.nan := by
  cases c with
  | finite q =>
      rcases lt_trichotomy q 0 with h | h | h
      · right; left
        simp [div_def, div, h, not_lt.mpr (le_of_lt h)]
      · right; right
        simp [div_def, div, h]
      · left
        simp [div_def, div, h]
  | pinf => left; simp [div_def, div]
  | ninf => right; left; simp [div_def, div]
  | nan => right; right; rfl

end F

/-- `const threshold float64 = 0.00001` — the module-wide tolerance. -/
def threshold : F := F.finite (1 / 100000)

/-- `Vector3` holds three floats that represent X, Y and Z space
(both 3D vectors and 3D points). -/
structure Vector3 where
  X : F
  Y : F
  Z : F
deriving DecidableEq, Repr

/-- `UnitX` — the unit vector in the X axis. -/
def UnitX : Vector3 := ⟨F.finite 1, F.finite 0, F.finite 0⟩

/-- `UnitY` — the unit vector in the Y axis. -/
def UnitY : Vector3 := ⟨F.finite 0, F.finite 1, F.finite 0⟩

/-- `UnitZ` — the unit vector in the Z axis. -/
def UnitZ : Vector3 := ⟨F.finite 0, F.finite 0, F.finite 1⟩

/-- `Abs` returns the distance from the origin:
`math.Sqrt(v.X*v.X + v.Y*v.Y + v.Z*v.Z)`.  `math.Sqrt` is the
uninterpreted parameter `sqrt`. -/
def Vector3.Abs (sqrt : F → F) (v : Vector3) : F :=
  sqrt (v.X * v.X + v.Y * v.Y + v.Z * v.Z)

/-- `Divide` returns a vector result of dividing all the values in the
vector by `k`. -/
def Vector3.Divide (v : Vector3) (k : F) : Vector3 :=
  ⟨v.X / k, v.Y / k, v.Z / k⟩

/-- `Normalized` returns the normalized 3D vector:
`v.Divide(v.Abs())`. -/
def Vector3.Normalized (sqrt : F → F) (v : Vector3) : Vector3 :=
  v.Divide (v.Abs sqrt)

/-- `Multiply` returns a vector result of multiplying all the values in
the vector by `k`. -/
def Vector3.Multiply (v : Vector3) (k : F) : Vector3 :=
  ⟨v.X * k, v.Y * k, v.Z * k⟩

/-- `Add` returns the result of adding two vectors. -/
def Vector3.Add (v v2 : Vector3) : Vector3 :=
  ⟨v.X + v2.X, v.Y + v2.Y, v.Z + v2.Z⟩

/-- `Subtract` (method) returns the result of subtracting two
vectors. -/
def Vector3.Subtract (v v2 : Vector3) : Vector3 :=
  ⟨v.X - v2.X, v.Y - v2.Y, v.Z - v2.Z⟩

/-- `Dot` returns the dot product of the 3D vectors. -/
def Vector3.Dot (v v2 : Vector3) : F :=
  v.X * v2.X + v.Y * v2.Y + v.Z * v2.Z

/-- `Cross` returns the cross product of the 3D vectors. -/
def Vector3.Cross (v v2 : Vector3) : Vector3 :=
  ⟨v.Y * v2.Z - v.Z * v2.Y,
   v.Z * v2.X - v.X * v2.Z,
   v.X * v2.Y - v.Y * v2.X⟩

/-- `Subtract` (free function) returns the vector that goes from
`pointA` to `pointB`. -/
def Subtract (pointA pointB : Vector3) : Vector3 :=
  ⟨pointA.X - pointB.X, pointA.Y - pointB.Y, pointA.Z - pointB.Z⟩

/-- `Distance` returns the distance from `pointA` to `pointB`:
`Subtract(pointA, pointB).Abs()`. -/
def Distance (sqrt : F → F) (pointA pointB : Vector3) : F :=
  (Subtract pointA pointB).Abs sqrt

/-- `Reflect` returns the vector reflected off the surface with the
given normal: `v.Subtract(normal).Multiply(v.Dot(normal) * 2)`. -/
def Vector3.Reflect (v normal : Vector3) : Vector3 :=
  (v.Subtract normal).Multiply (v.Dot normal * F.finite 2)

/-- `Equal` returns true if both vectors are the same within a margin
of error: per-axis `math.Abs(difference) < threshold`. -/
def Vector3.Equal (v v2 : Vector3) : Bool :=
  F.flt (F.fabs (v.X - v2.X)) threshold &&
  F.flt (F.fabs (v.Y - v2.Y)) threshold &&
  F.flt (F.fabs (v.Z - v2.Z)) threshold

/-- `Differ` returns true if the vectors are not the same within a
margin of error: `!v.Equal(v2)`. -/
def Vector3.Differ (v v2 : Vector3) : Bool :=
  ! v.Equal v2

/-- A Go `interface{}` value stored in the input map of
`VectorFromMap`: either a `float64`, or a value of any other dynamic
type (collapsed to one constructor, since the code only ever asks
"is it a float64?"). -/
inductive GoVal where
  | float : F → GoVal
  | other : GoVal
deriving DecidableEq, Repr

/-- A Go `map[string]interface{}`: for each key, either an entry or
nothing. -/
def GoMap : Type := String → Option GoVal

/-- `AsMap` returns a map representation of the vector:
`map[string]float64{"x": v.X, "y": v.Y, "z": v.Z}` (viewed as a
dynamic map for the round trip through `VectorFromMap`). -/
def Vector3.AsMap (v : Vector3) : GoMap := fun k =>
  if k = "x" then some (GoVal.float v.X)
  else if k = "y" then some (GoVal.float v.Y)
  else if k = "z" then some (GoVal.float v.Z)
  else none

/-- Go's unchecked type assertion `m[key].(float64)`: a missing key
(the zero `interface{}` value) or a non-`float64` dynamic type makes
the program panic — an unrecovered fatal fault, modelled as
`Except.error`. -/
def assertFloat : Option GoVal → Except Unit F
  | some (GoVal.float q) => Except.ok q
  | _ => Except.error ()

/-- `VectorFromMap` returns the vector defined in the map:
`Vector3{X: m["x"].(float64), Y: m["y"].(float64), Z: m["z"].(float64)}`;
a panic of any of the three assertions is the `Except.error` outcome. -/
def VectorFromMap (m : GoMap) : Except Unit Vector3 := do
  let x ← assertFloat (m "x")
  let y ← assertFloat (m "y")
  let z ← assertFloat (m "z")
  return ⟨x, y, z⟩

/-- A vector with three finite components compares `Equal` to itself. -/
theorem equal_self_of_all_finite (v : Vector3) (hx : v.X.isFinite = true)
    (hy : v.Y.isFinite = true) (hz : v.Z.isFinite = true) : v.Equal v = true := by
  obtain ⟨a, ha⟩ := F.eq_finite_of_isFinite hx
  obtain ⟨b, hb⟩ := F.eq_finite_of_isFinite hy
  obtain ⟨c, hc⟩ := F.eq_finite_of_isFinite hz
  simp [Vector3.Equal, ha, hb, hc, F.sub_def, F.sub, F.fabs, F.flt, threshold]

/-- A vector with a non-finite component (`NaN` or `±Inf`) does not
compare `Equal` to itself: on that axis the difference is `NaN` and
`NaN < threshold` is false. -/
theorem equal_self_false_of_not_all_finite (v : Vector3)
    (h : ¬(v.X.isFinite = true ∧ v.Y.isFinite = true ∧ v.Z.isFinite = true)) :
    v.Equal v = false := by
  rcases v with ⟨x, y, z⟩
  cases x <;> cases y <;> cases z <;>
    simp_all [F.isFinite, Vector3.Equal, F.sub_def, F.sub, F.fabs, F.flt, threshold]

/-- Modelled from the spec: the conventional reflection formula
`v − 2·dot(v,n)·n`, which the spec contrasts with the formula the
source implements; defined only for that comparison. -/
def conventionalReflect (v n : Vector3) : Vector3 :=
  v.Subtract (n.Multiply (F.finite 2 * v.Dot n))

/-- C1: `Reflect(v, n)` computes, on every component, the literal
formula `(v_i − n_i) · (2 · dot(v, n))` — the component of `v − n`
scaled by `2·dot(v,n)` — and this differs from the conventional
reflection formula `v − 2·dot(v,n)·n` (shown at `v = UnitX`,
`n = UnitY`). -/
theorem reflect_literal_formula :
    (∀ v n : Vector3,
      (v.Reflect n).X = (v.X - n.X) * (F.finite 2 * v.Dot n) ∧
      (v.Reflect n).Y = (v.Y - n.Y) * (F.finite 2 * v.Dot n) ∧
      (v.Reflect n).Z = (v.Z - n.Z) * (F.finite 2 * v.Dot n)) ∧
    UnitX.Reflect UnitY ≠ conventionalReflect UnitX UnitY := by
  constructor
  · intro v n
    refine ⟨?_, ?_, ?_⟩ <;>
      simp only [Vector3.Reflect, Vector3.Multiply, Vector3.Subtract] <;>
      rw [F.mul_comm (v.Dot n) (F.finite 2)]
  · simp [UnitX, UnitY, Vector3.Reflect, conventionalReflect, Vector3.Subtract,
      Vector3.Multiply, Vector3.Dot, F.mul_def, F.sub_def, F.add_def,
      F.mul, F.sub, F.add, Vector3.mk.injEq]

/-- C3: on finite values, `Equal(a, b)` is true exactly when every
axis satisfies `|a_axis − b_axis| < 0.00001`; in particular
`Equal((0,0,0), (0,0,0.000005))` is true and
`Equal((0,0,0), (0,0,0.00002))` is false. -/
theorem equal_iff_within_threshold :
    (∀ a1 a2 a3 b1 b2 b3 : ℚ,
      Vector3.Equal ⟨F.finite a1, F.finite a2, F.finite a3⟩
          ⟨F.finite b1, F.finite b2, F.finite b3⟩ = true ↔
        (|a1 - b1| < 1/100000 ∧ |a2 - b2| < 1/100000 ∧ |a3 - b3| < 1/100000)) ∧
    Vector3.Equal ⟨F.finite 0, F.finite 0, F.finite 0⟩
        ⟨F.finite 0, F.finite 0, F.finite (1/200000)⟩ = true ∧
    Vector3.Equal ⟨F.finite 0, F.finite 0, F.finite 0⟩
        ⟨F.finite 0, F.finite 0, F.finite (1/50000)⟩ = false := by
  refine ⟨?_, ?_, ?_⟩
  · intro a1 a2 a3 b1 b2 b3
    simp [Vector3.Equal, F.sub_def, F.sub, F.fabs, F.flt, threshold]
    tauto
  · simp [Vector3.Equal, F.sub_def, F.sub, F.fabs, F.flt, threshold]
    norm_num [abs_of_pos]
  · simp [Vector3.Equal, F.sub_def, F.sub, F.fabs, F.flt, threshold]
    norm_num [abs_of_pos]

/-- C7: `Cross` is the right-handed cross product
`(y₁z₂−z₁y₂, z₁x₂−x₁z₂, x₁y₂−y₁x₂)` (stated on finite values, where
the modelled float arithmetic is exact rational arithmetic), and
`Cross(UnitX, UnitY) = UnitZ`. -/
theorem cross_right_handed :
    (∀ a1 a2 a3 b1 b2 b3 : ℚ,
      Vector3.Cross ⟨F.finite a1, F.finite a2, F.finite a3⟩
          ⟨F.finite b1, F.finite b2, F.finite b3⟩ =
        ⟨F.finite (a2*b3 - a3*b2), F.finite (a3*b1 - a1*b3), F.finite (a1*b2 - a2*b1)⟩) ∧
    UnitX.Cross UnitY = UnitZ := by
  constructor
  · intro a1 a2 a3 b1 b2 b3
    simp [Vector3.Cross, F.mul_def, F.sub_def, F.mul, F.sub]
  · simp [UnitX, UnitY, UnitZ, Vector3.Cross, F.mul_def, F.sub_def, F.mul, F.sub,
      Vector3.mk.injEq]

/-- C8: `Differ(a, b)` is the boolean negation of `Equal(a, b)`, so for
all vectors (NaN components included) exactly one of the two holds. -/
theorem differ_negation_of_equal :
    ∀ a b : Vector3,
      a.Differ b = ! a.Equal b ∧ Bool.xor (a.Equal b) (a.Differ b) = true := by
  intro a b
  refine ⟨rfl, ?_⟩
  cases h : a.Equal b <;> simp [Vector3.Differ, h]

/-- C5: `Distance` is symmetric — `Distance(p1, p2) = Distance(p2, p1)`
as computed values, for every choice of the square-root function and
arbitrary points (special values included): the squared per-axis
differences agree on both sides, so `math.Sqrt` is applied to the same
argument. -/
theorem distance_symm :
    ∀ (sqrt : F → F) (p1 p2 : Vector3), Distance sqrt p1 p2 = Distance sqrt p2 p1 := by
  intro sqrt p1 p2
  simp only [Distance, Vector3.Abs, Subtract]
  rw [F.sq_sub_symm p1.X p2.X, F.sq_sub_symm p1.Y p2.Y, F.sq_sub_symm p1.Z p2.Z]

/-- C6: `Normalized(v)` is `v` divided component-wise by the magnitude
`sqrt(x² + y² + z²)`; when that magnitude is zero there is no special
case — each component is a plain IEEE division by zero, so it is `+Inf`,
`-Inf` or `NaN`, returned as a normal result; in particular on the zero
vector every component is `0/0 = NaN`. -/
theorem normalized_spec :
    (∀ (sqrt : F → F) (v : Vector3),
      v.Normalized sqrt =
        ⟨v.X / sqrt (v.X * v.X + v.Y * v.Y + v.Z * v.Z),
         v.Y / sqrt (v.X * v.X + v.Y * v.Y + v.Z * v.Z),
         v.Z / sqrt (v.X * v.X + v.Y * v.Y + v.Z * v.Z)⟩) ∧
    (∀ (sqrt : F → F) (v : Vector3), v.Abs sqrt = F.finite 0 →
      ((v.Normalized sqrt).X = F.pinf ∨ (v.Normalized sqrt).X = F.ninf ∨
        (v.Normalized sqrt).X = F.nan) ∧
      ((v.Normalized sqrt).Y = F.pinf ∨ (v.Normalized sqrt).Y = F.ninf ∨
        (v.Normalized sqrt).Y = F.nan) ∧
      ((v.Normalized sqrt).Z = F.pinf ∨ (v.Normalized sqrt).Z = F.ninf ∨
        (v.Normalized sqrt).Z = F.nan)) ∧
    (∀ sqrt : F → F, sqrt (F.finite 0) = F.finite 0 →
      Vector3.Normalized sqrt ⟨F.finite 0, F.finite 0, F.finite 0⟩ =
        ⟨F.nan, F.nan, F.nan⟩) := by
  refine ⟨fun sqrt v => rfl, ?_, ?_⟩
  · intro sqrt v h
    refine ⟨?_, ?_, ?_⟩ <;>
      simp only [Vector3.Normalized, Vector3.Divide] <;>
      rw [h] <;>
      exact F.div_finite_zero _
  · intro sqrt h
    have e : (F.finite 0 * F.finite 0 + F.finite 0 * F.finite 0 +
        F.finite 0 * F.finite 0) = F.finite 0 := by
      simp [F.mul_def, F.add_def, F.mul, F.add]
    simp only [Vector3.Normalized, Vector3.Divide, Vector3.Abs]
    rw [e, h]
    simp [F.div_def, F.div]

/-- Witness for C6: with `sqrt` the constant-zero function the
magnitude of `(1,0,0)` is `0`, so the normalized components are
infinities or `NaN`, and the zero vector normalizes to all-`NaN`. -/
theorem normalized_spec_witness :
    (((Vector3.Normalized (fun _ => F.finite 0)
          ⟨F.finite 1, F.finite 0, F.finite 0⟩).X = F.pinf ∨
      (Vector3.Normalized (fun _ => F.finite 0)
          ⟨F.finite 1, F.finite 0, F.finite 0⟩).X = F.ninf ∨
      (Vector3.Normalized (fun _ => F.finite 0)
          ⟨F.finite 1, F.finite 0, F.finite 0⟩).X = F.nan) ∧
     ((Vector3.Normalized (fun _ => F.finite 0)
          ⟨F.finite 1, F.finite 0, F.finite 0⟩).Y = F.pinf ∨
      (Vector3.Normalized (fun _ => F.finite 0)
          ⟨F.finite 1, F.finite 0, F.finite 0⟩).Y = F.ninf ∨
      (Vector3.Normalized (fun _ => F.finite 0)
          ⟨F.finite 1, F.finite 0, F.finite 0⟩).Y = F.nan) ∧
     ((Vector3.Normalized (fun _ => F.finite 0)
          ⟨F.finite 1, F.finite 0, F.finite 0⟩).Z = F.pinf ∨
      (Vector3.Normalized (fun _ => F.finite 0)
          ⟨F.finite 1, F.finite 0, F.finite 0⟩).Z = F.ninf ∨
      (Vector3.Normalized (fun _ => F.finite 0)
          ⟨F.finite 1, F.finite 0, F.finite 0⟩).Z = F.nan)) ∧
    Vector3.Normalized (fun _ => F.finite 0)
        ⟨F.finite 0, F.finite 0, F.finite 0⟩ = ⟨F.nan, F.nan, F.nan⟩ :=
  ⟨normalized_spec.2.1 (fun _ => F.finite 0) ⟨F.finite 1, F.finite 0, F.finite 0⟩ rfl,
   normalized_spec.2.2 (fun _ => F.finite 0) rfl⟩

/-- C9 counterexample: the vector `(+Inf, 0, 0)` has no `NaN`
component, yet `Equal(v, v)` is false — `Inf − Inf` is `NaN` and
`NaN < threshold` is false — refuting the claim that non-`NaN`
components suffice for reflexivity. -/
theorem equal_refl_counterexample :
    (F.pinf ≠ F.nan ∧ F.finite 0 ≠ F.nan) ∧
    Vector3.Equal ⟨F.pinf, F.finite 0, F.finite 0⟩
        ⟨F.pinf, F.finite 0, F.finite 0⟩ = false := by
  constructor
  · exact ⟨by simp, by simp⟩
  · simp [Vector3.Equal, F.sub_def, F.sub, F.fabs, F.flt, threshold]

/-- C9 (amended): `Equal(v, v)` is true exactly when all three
components are finite (neither `NaN` nor `±Inf`); when some component
is `NaN` or an infinity, `Equal(v, v)` is false and `Differ(v, v)` is
true. -/
theorem equal_refl_iff_all_finite :
    ∀ v : Vector3,
      (v.X.isFinite = true ∧ v.Y.isFinite = true ∧ v.Z.isFinite = true →
        v.Equal v = true) ∧
      (¬(v.X.isFinite = true ∧ v.Y.isFinite = true ∧ v.Z.isFinite = true) →
        v.Equal v = false ∧ v.Differ v = true) := by
  intro v
  constructor
  · intro h
    exact equal_self_of_all_finite v h.1 h.2.1 h.2.2
  · intro h
    have e := equal_self_false_of_not_all_finite v h
    exact ⟨e, by simp [Vector3.Differ, e]⟩

/-- Witness for C9 (amended): a finite vector compares `Equal` to
itself, and a vector with a `NaN` component compares `Equal` false and
`Differ` true against itself. -/
theorem equal_refl_iff_all_finite_witness :
    Vector3.Equal ⟨F.finite 1, F.finite 2, F.finite 3⟩
        ⟨F.finite 1, F.finite 2, F.finite 3⟩ = true ∧
    (Vector3.Equal ⟨F.nan, F.finite 0, F.finite 0⟩
        ⟨F.nan, F.finite 0, F.finite 0⟩ = false ∧
     Vector3.Differ ⟨F.nan, F.finite 0, F.finite 0⟩
        ⟨F.nan, F.finite 0, F.finite 0⟩ = true) :=
  ⟨(equal_refl_iff_all_finite ⟨F.finite 1, F.finite 2, F.finite 3⟩).1
      ⟨rfl, rfl, rfl⟩,
   (equal_refl_iff_all_finite ⟨F.nan, F.finite 0, F.finite 0⟩).2
      (by simp [F.isFinite])⟩

/-- C4 counterexample: for `v = (NaN, 0, 0)` the round trip
`VectorFromMap(AsMap(v))` returns exactly `v`, but `Equal` of the
result with `v` is false (`NaN − NaN = NaN`, and `NaN < threshold` is
false), refuting the claim for arbitrary (NaN/Inf) vectors. -/
theorem roundtrip_equal_counterexample :
    VectorFromMap (Vector3.AsMap ⟨F.nan, F.finite 0, F.finite 0⟩) =
      Except.ok ⟨F.nan, F.finite 0, F.finite 0⟩ ∧
    Vector3.Equal ⟨F.nan, F.finite 0, F.finite 0⟩
        ⟨F.nan, F.finite 0, F.finite 0⟩ = false := by
  constructor
  · rfl
  · simp [Vector3.Equal, F.sub_def, F.sub, F.fabs, F.flt, threshold]

/-- C4 (amended): for every vector `v`, `VectorFromMap(AsMap(v))`
succeeds and returns `v` itself; when the three components are finite
(neither `NaN` nor `±Inf`) the result moreover compares `Equal` to `v`
within the threshold tolerance. -/
theorem roundtrip_map :
    ∀ v : Vector3,
      VectorFromMap (Vector3.AsMap v) = Except.ok v ∧
      (v.X.isFinite = true ∧ v.Y.isFinite = true ∧ v.Z.isFinite = true →
        v.Equal v = true) := by
  intro v
  refine ⟨rfl, fun h => equal_self_of_all_finite v h.1 h.2.1 h.2.2⟩

/-- Witness for C4 (amended): the round trip on `(1, 2, 3)` returns
the same vector and the result compares `Equal`. -/
theorem roundtrip_map_witness :
    VectorFromMap (Vector3.AsMap ⟨F.finite 1, F.finite 2, F.finite 3⟩) =
      Except.ok ⟨F.finite 1, F.finite 2, F.finite 3⟩ ∧
    Vector3.Equal ⟨F.finite 1, F.finite 2, F.finite 3⟩
        ⟨F.finite 1, F.finite 2, F.finite 3⟩ = true :=
  ⟨(roundtrip_map ⟨F.finite 1, F.finite 2, F.finite 3⟩).1,
   (roundtrip_map ⟨F.finite 1, F.finite 2, F.finite 3⟩).2 ⟨rfl, rfl, rfl⟩⟩

/-- C2: `VectorFromMap(m)` hits the panic outcome (an unrecovered
fatal fault, not a typed error — modelled by `Except.error`) exactly
when one of the keys `"x"`, `"y"`, `"z"` is absent from `m` or holds a
value whose dynamic type is not `float64`; when all three keys hold
floats, it returns the vector with those components. -/
theorem vectorFromMap_panic_iff :
    ∀ m : GoMap,
      (VectorFromMap m = Except.error () ↔
        (m "x" = none ∨ m "x" = some GoVal.other) ∨
        (m "y" = none ∨ m "y" = some GoVal.other) ∨
        (m "z" = none ∨ m "z" = some GoVal.other)) ∧
      (∀ a b c : F, m "x" = some (GoVal.float a) → m "y" = some (GoVal.float b) →
        m "z" = some (GoVal.float c) → VectorFromMap m = Except.ok ⟨a, b, c⟩) := by
  intro m
  constructor
  · rcases hx : m "x" with _ | (a | _) <;> rcases hy : m "y" with _ | (b | _) <;>
      rcases hz : m "z" with _ | (c | _) <;>
      simp [VectorFromMap, assertFloat, hx, hy, hz, Bind.bind, Except.bind, pure, Except.pure]
  · intro a b c hx hy hz
    simp [VectorFromMap, assertFloat, hx, hy, hz, Bind.bind, Except.bind, pure, Except.pure]

/-- Witness for C2: a map holding floats at `"x"`, `"y"`, `"z"`
constructs the corresponding vector. -/
theorem vectorFromMap_panic_iff_witness :
    VectorFromMap (fun k =>
        if k = "x" then some (GoVal.float (F.finite 1))
        else if k = "y" then some (GoVal.float (F.finite 2))
        else if k = "z" then some (GoVal.float (F.finite 3))
        else none) =
      Except.ok ⟨F.finite 1, F.finite 2, F.finite 3⟩ :=
  (vectorFromMap_panic_iff (fun k =>
        if k = "x" then some (GoVal.float (F.finite 1))
        else if k = "y" then some (GoVal.float (F.finite 2))
        else if k = "z" then some (GoVal.float (F.finite 3))
        else none)).2
    (F.finite 1) (F.finite 2) (F.finite 3) rfl rfl rfl

/-- C10: the result of `VectorFromMap` depends only on the entries at
keys `"x"`, `"y"` and `"z"` — two maps agreeing there produce
identical outcomes — and entries under any other key are ignored: when
the three keys hold floats, construction succeeds with those
components no matter what the map holds elsewhere. -/
theorem vectorFromMap_depends_only_on_xyz :
    (∀ m1 m2 : GoMap,
      m1 "x" = m2 "x" → m1 "y" = m2 "y" → m1 "z" = m2 "z" →
      VectorFromMap m1 = VectorFromMap m2) ∧
    (∀ (extra : GoMap) (a b c : F),
      VectorFromMap (fun k =>
          if k = "x" then some (GoVal.float a)
          else if k = "y" then some (GoVal.float b)
          else if k = "z" then some (GoVal.float c)
          else extra k) =
        Except.ok ⟨a, b, c⟩) := by
  constructor
  · intro m1 m2 hx hy hz
    unfold VectorFromMap
    rw [hx, hy, hz]
  · intro extra a b c
    rfl

/-- Witness for C10: two maps that agree on `"x"`, `"y"`, `"z"` but
differ at the extra key `"w"` (absent in one, a non-float entry in the
other) yield the same result. -/
theorem vectorFromMap_depends_only_on_xyz_witness :
    VectorFromMap (fun k =>
        if k = "x" then some (GoVal.float (F.finite 1))
        else if k = "y" then some (GoVal.float (F.finite 2))
        else if k = "z" then some (GoVal.float (F.finite 3))
        else if k = "w" then some GoVal.other
        else none) =
      VectorFromMap (fun k =>
        if k = "x" then some (GoVal.float (F.finite 1))
        else if k = "y" then some (GoVal.float (F.finite 2))
        else if k = "z" then some (GoVal.float (F.finite 3))
        else none) :=
  vectorFromMap_depends_only_on_xyz.1 _ _ rfl rfl rfl

end math3d
